import Mathlib

/-!
Verification of the reservation-conflict / fallback-command core of the
Kea-GUI-Reservations repository (src/kea_client.py and src/app.py), as a
shallow embedding in Lean.

Conventions of the embedding:
* Python strings are Lean `String`s; a missing dictionary value of string
  type is modelled as `""` where the source itself treats the two alike
  (every `get(..., '')` call site), and as `Option` where the source
  distinguishes them (`result`, `text`, subnet `id`).
* Quotes that appear inside some of the source's message strings are
  elided from the modelled messages; the surrounding words are kept.
* The Kea backend is external to the repository.  Its observable behaviour
  at each command is passed in as data (a `BackendCtx`, an envelope, a
  lease table), exactly as the source observes it through `_send_command`.
* Network transport failures, the Flask plumbing and the file-lock
  acquisition are outside the modelled core: the model describes one
  request whose lock acquisition succeeded (the lock-timeout 503 branch
  and the transport 500 branch are therefore not constructors here).
-/

/-- ASCII lowercasing of a string, the model of Python `str.lower()` on the
MAC-address and error-message strings the source lowercases (all ASCII). -/
def strLower (s : String) : String := ⟨s.data.map Char.toLower⟩

/-- `listStartsWith p l` is true iff `p` is an initial segment of `l`. -/
def listStartsWith : List Char → List Char → Bool
  | [], _ => true
  | _ :: _, [] => false
  | p :: ps, c :: cs => p == c && listStartsWith ps cs

/-- `listContainsSeq p l` is true iff `p` occurs contiguously inside `l`. -/
def listContainsSeq (p : List Char) : List Char → Bool
  | [] => listStartsWith p []
  | c :: cs => listStartsWith p (c :: cs) || listContainsSeq p cs

/-- `strContains s pat`: model of the Python substring test `pat in s`. -/
def strContains (s pat : String) : Bool := listContainsSeq pat.data s.data

/-! ## Data model (spec section 3, read off src/kea_client.py) -/

/-- One reservation object as stored inside a subnet's `reservations` list
(`kea_client.py`, `_create_reservation_via_config`): keys `ip-address`,
`hw-address` and optional `hostname` (absent modelled as `""`). -/
structure Reservation where
  ipAddress : String
  hwAddress : String
  hostname : String
deriving DecidableEq, Repr

/-- One entry of the Dhcp4 `subnet4` array, restricted to the keys the
modelled core reads: `id` (may be missing), `subnet` prefix string and the
nested `reservations` list (a missing key behaves as `[]` at every use). -/
structure Subnet where
  id : Option Nat
  subnet : String
  reservations : List Reservation
deriving DecidableEq, Repr

instance : Inhabited Subnet := ⟨⟨none, "", []⟩⟩

/-- Default used with `List.getD` where the source holds a direct reference
to a list element that is always in range. -/
def dfltSubnet : Subnet := ⟨none, "", []⟩

/-- The Dhcp4 configuration returned by `config-get`, restricted to the
keys the modelled core reads: the `subnet4` array and the
`lease-database`.`type` string (both levels of absence collapse to the
`memfile` default applied at the only read site). -/
structure Dhcp4Config where
  subnet4 : List Subnet
  leaseDbType : Option String
deriving DecidableEq, Repr

/-! ## Command transport classification (src/kea_client.py lines 120-147) -/

/-- The first element of a well-formed Kea response array:
`{ result: int, text: string, arguments?: ... }`.  `result` and `text` may
be absent (`.get` with defaults 0 and "Unknown error").  `α` is the shape
of the command-specific `arguments` payload. -/
structure KeaEnvelope (α : Type) where
  result : Option Int
  text : Option String
  arguments : Option α
deriving DecidableEq, Repr

/-- Outcome of `_send_command`'s classification of a well-formed response:
success returns `result[0]` itself; `unsupported` is the raised
`CommandNotSupportedException`; `unsupportedNone` is the `None` returned
when `raise_on_unsupported` is false; `failure` is the generic raised
`Exception`. -/
inductive SendOutcome (α : Type) where
  | success (payload : KeaEnvelope α)
  | unsupported (msg : String)
  | unsupportedNone
  | failure (msg : String)
deriving DecidableEq, Repr

/-- The message-substring heuristic of lines 136: true iff the lowercased
text contains "not supported" or "command not found". -/
def unsupportedPhrase (msg : String) : Bool :=
  strContains (strLower msg) "not supported" || strContains (strLower msg) "command not found"

/-- Message of the raised `CommandNotSupportedException` (quotes around the
command name elided). -/
def unsupportedMsg (command msg : String) : String :=
  "Command " ++ command ++ " not supported: " ++ msg

/-- Classification of a well-formed response by `_send_command`
(kea_client.py lines 120-147): code 2 is unsupported; any other non-zero
code whose text matches the heuristic is unsupported; any other non-zero
code raises `KEA command failed: text`; code 0 returns `result[0]`. -/
def classifyResponse {α : Type} (command : String) (raiseOnUnsupported : Bool)
    (env : KeaEnvelope α) : SendOutcome α :=
  let code := env.result.getD 0
  let msg := env.text.getD "Unknown error"
  if code = 2 then
    if raiseOnUnsupported then .unsupported (unsupportedMsg command msg) else .unsupportedNone
  else if code ≠ 0 then
    if unsupportedPhrase msg then
      if raiseOnUnsupported then .unsupported (unsupportedMsg command msg) else .unsupportedNone
    else .failure ("KEA command failed: " ++ msg)
  else .success env

/-! ## Claim C5 -/

/-- C5: the command-transport classification of every well-formed backend
response: result code 0 returns the parsed payload; result code 2, or any
non-zero result code whose message matches the known not-supported
phrasing, yields the distinguished unsupported outcome (an exception, or
the None return when `raise_on_unsupported` is false); every other
non-zero result code fails with an error carrying the backend's message
verbatim. -/
theorem C5_transport_classification {α : Type} (command : String) (b : Bool)
    (env : KeaEnvelope α) :
    (env.result.getD 0 = 0 → classifyResponse command b env = .success env) ∧
    ((env.result.getD 0 = 2 ∨
        (env.result.getD 0 ≠ 0 ∧ unsupportedPhrase (env.text.getD "Unknown error") = true)) →
      classifyResponse command b env =
        if b then .unsupported (unsupportedMsg command (env.text.getD "Unknown error"))
        else .unsupportedNone) ∧
    (env.result.getD 0 ≠ 0 → env.result.getD 0 ≠ 2 →
      unsupportedPhrase (env.text.getD "Unknown error") = false →
      classifyResponse command b env =
        .failure ("KEA command failed: " ++ env.text.getD "Unknown error")) := by
  refine ⟨?_, ?_, ?_⟩
  · intro h0
    have h2 : env.result.getD 0 ≠ 2 := by rw [h0]; decide
    simp [classifyResponse, h0, h2]
  · rintro (h2 | ⟨h0, hph⟩)
    · simp [classifyResponse, h2]
    · by_cases h2 : env.result.getD 0 = 2
      · simp [classifyResponse, h2]
      · simp [classifyResponse, h2, h0, hph]
  · intro h0 h2 hph
    simp [classifyResponse, h0, h2, hph]

/-- Witness for C5 at concrete envelopes exercising all three branches. -/
theorem C5_transport_classification_witness :
    classifyResponse "version-get" true
        (⟨some 0, none, none⟩ : KeaEnvelope Unit) = .success ⟨some 0, none, none⟩ ∧
    classifyResponse "lease4-get-all" true
        (⟨some 2, some "nope", none⟩ : KeaEnvelope Unit) =
      .unsupported (unsupportedMsg "lease4-get-all" "nope") ∧
    classifyResponse "lease4-get-page" false
        (⟨some 1, some "command not found", none⟩ : KeaEnvelope Unit) = .unsupportedNone ∧
    classifyResponse "config-set" true
        (⟨some 1, some "syntax error", none⟩ : KeaEnvelope Unit) =
      .failure ("KEA command failed: " ++ "syntax error") := by
  refine ⟨?_, ?_, ?_, ?_⟩
  · exact (C5_transport_classification "version-get" true _).1 (by decide)
  · exact ((C5_transport_classification "lease4-get-all" true _).2.1 (Or.inl (by decide)))
  · exact ((C5_transport_classification "lease4-get-page" false _).2.1
      (Or.inr ⟨by decide, by decide⟩))
  · exact (C5_transport_classification "config-set" true _).2.2 (by decide) (by decide) (by decide)

/-! ## Listing reservations (src/kea_client.py `get_reservations`, lines 294-338) -/

/-- One entry of the list returned by `KeaClient.get_reservations`: the
reservation's own keys plus the enclosing subnet's id and prefix. -/
structure ResEntry where
  ipAddress : String
  hwAddress : String
  hostname : String
  subnetId : Option Nat
  subnetPrefix : String
deriving DecidableEq, Repr

/-- `KeaClient.get_reservations`: read the configuration, walk `subnet4`,
skip subnets whose id differs from the requested one (when one is
requested), and flatten each subnet's embedded reservations, tagging them
with the subnet id and prefix.  (The source's catch-all that turns a
backend read failure into `[]` concerns the external transport and is not
reachable in this pure model.) -/
def get_reservations (cfg : Dhcp4Config) (subnet_id : Option Nat) : List ResEntry :=
  cfg.subnet4.flatMap fun sn =>
    match subnet_id with
    | some sid =>
      if sn.id == some sid then
        sn.reservations.map fun r => ⟨r.ipAddress, r.hwAddress, r.hostname, sn.id, sn.subnet⟩
      else []
    | none =>
      sn.reservations.map fun r => ⟨r.ipAddress, r.hwAddress, r.hostname, sn.id, sn.subnet⟩

/-! ## Create-reservation, client tier (src/kea_client.py lines 340-443) -/

/-- Behaviour of the backend at the `reservation-add` command (tier 1),
observed through `_send_command`: success, the unsupported signal, or a
generic failure with a message. -/
inductive AddOutcome where
  | ok
  | unsupported
  | err (msg : String)
deriving DecidableEq, Repr

/-- The backend behaviour a create-reservation request can observe: the
`reservation-add` outcome and whether a `config-set` write is accepted. -/
structure BackendCtx where
  addOutcome : AddOutcome
  configSetOk : Bool
deriving DecidableEq, Repr

/-- Result of `KeaClient.create_reservation` together with its
configuration-rewrite fallback: `nativeOk` is a tier-1 success (the
returned dict; the write lives in the backend's host store, the fetched
configuration is untouched); `cfgWrote` is a fallback success carrying the
entire rewritten configuration sent with `config-set`; `failedNoWrite` is
an exception raised before any `config-set` was issued; `writeRejected` is
a `config-set` that the backend refused. -/
inductive CreateResult where
  | nativeOk (reservation : Reservation)
  | cfgWrote (newConfig : Dhcp4Config) (reservation : Reservation)
  | failedNoWrite (msg : String)
  | writeRejected (msg : String)
deriving DecidableEq, Repr

/-- The target-subnet search loop of `_create_reservation_via_config`
(lines 404-411) restricted to the case where a subnet id was given: index
of the first subnet whose `id` equals it (the loop breaks at the first
match). -/
def findSubnetIdx (subnets : List Subnet) (s : Nat) : Option Nat :=
  match subnets with
  | [] => none
  | sn :: rest =>
    if sn.id == some s then some 0 else (findSubnetIdx rest s).map (· + 1)

/-- Index of the subnet `_create_reservation_via_config` targets: with a
subnet id, the first exact match; without one, the condition holds for
every subnet and the loop never breaks, so `target_subnet` ends up being
the last subnet (the inner `if target_subnet is None` rebind is dead code,
since `target_subnet` was just assigned). -/
def findTargetIdx (subnets : List Subnet) (sid : Option Nat) : Option Nat :=
  match sid with
  | some s => findSubnetIdx subnets s
  | none => match subnets with
    | [] => none
    | _ :: _ => some (subnets.length - 1)

/-- Python `repr` of the optional subnet id as interpolated into the
not-found message. -/
def optNatRepr : Option Nat → String
  | none => "None"
  | some n => toString n

/-- Message of the exception raised when no subnet qualifies. -/
def subnetNotFoundMsg (sid : Option Nat) : String :=
  "Subnet " ++ optNatRepr sid ++ " not found in configuration"

/-- `_create_reservation_via_config` (lines 381-443): fetch configuration,
locate the target subnet, raise if any existing reservation there has the
same IP or the same MAC (lines 429-431 raise; they do not remove the
duplicate), else append the new reservation to that subnet and send the
whole modified configuration with `config-set`.  The second component
lists the mutation commands actually sent to the backend. -/
def createReservationViaConfig (cfg : Dhcp4Config) (configSetOk : Bool)
    (ip hw hostname : String) (sid : Option Nat) : CreateResult × List String :=
  match findTargetIdx cfg.subnet4 sid with
  | none => (.failedNoWrite (subnetNotFoundMsg sid), [])
  | some i =>
    let t := cfg.subnet4.getD i dfltSubnet
    if t.reservations.any (fun r => r.ipAddress == ip || r.hwAddress == hw) then
      (.failedNoWrite ("Reservation already exists for " ++ ip ++ " or " ++ hw), [])
    else
      let newRes : Reservation := ⟨ip, hw, hostname⟩
      let newCfg : Dhcp4Config :=
        { cfg with subnet4 := cfg.subnet4.set i { t with reservations := t.reservations ++ [newRes] } }
      if configSetOk then (.cfgWrote newCfg newRes, ["config-set"])
      else (.writeRejected "KEA command failed: config-set rejected", ["config-set"])

/-- `KeaClient.create_reservation` (lines 340-379): try `reservation-add`;
on the unsupported signal fall back to the configuration rewrite; re-raise
any other failure unchanged.  The second component lists the mutation
commands sent (the `reservation-add` attempt itself is always sent
first). -/
def kcCreateReservation (bk : BackendCtx) (cfg : Dhcp4Config)
    (ip hw hostname : String) (sid : Option Nat) : CreateResult × List String :=
  match bk.addOutcome with
  | .ok => (.nativeOk ⟨ip, hw, hostname⟩, ["reservation-add"])
  | .err m => (.failedNoWrite m, ["reservation-add"])
  | .unsupported =>
    let r := createReservationViaConfig cfg bk.configSetOk ip hw hostname sid
    (r.1, "reservation-add" :: r.2)

/-! ## DNS-server validation (src/app.py `validate_dns_servers`) -/

/-- Model of Python `ipaddress.IPv4Address(s)` acceptance on a string:
exactly four dot-separated decimal octets, each a non-empty all-digit run
of at most three characters with value at most 255 and no leading zero. -/
def isValidIPv4 (s : String) : Bool :=
  let parts := s.split (· == '.')
  parts.length == 4 && parts.all fun p =>
    p ≠ "" && p.length ≤ 3 && p.data.all Char.isDigit &&
    (p.length == 1 || p.front ≠ '0') &&
    (p.data.foldl (fun n c => n * 10 + (c.toNat - 48)) 0) ≤ 255

/-- Result triple of `validate_dns_servers`. -/
structure DnsValidation where
  valid : Bool
  errMsg : String
  dnsList : List String
deriving DecidableEq, Repr

/-- `validate_dns_servers` (src/app.py lines 366-398): empty or blank input
is valid with an empty list; otherwise split on commas, strip whitespace,
drop empties, reject more than four entries, reject the first entry that
is not a valid IPv4 address, else return the cleaned list. -/
def validate_dns_servers (dns : String) : DnsValidation :=
  if dns == "" || dns.trim == "" then ⟨true, "", []⟩
  else
    let ips := ((dns.split (· == ',')).map String.trim).filter (· ≠ "")
    if ips.length == 0 then ⟨true, "", []⟩
    else if ips.length > 4 then ⟨false, "Maximum of 4 DNS servers allowed", []⟩
    else
      match ips.find? (fun ip => !isValidIPv4 ip) with
      | some bad => ⟨false, "Invalid IP address: " ++ bad, []⟩
      | none => ⟨true, "", ips⟩

/-! ## The two mutating HTTP handlers (src/app.py `create_reservation`
lines 866-1112 and `promote_lease` lines 1115-1283) -/

/-- The JSON body of a create-reservation request after `data.get`
extraction: absent string fields are `""` (both are falsy at the
validation test), absent `subnet_id` is `none`, absent `force` is
`false`. -/
structure CreateRequest where
  ip_address : String
  hw_address : String
  hostname : String
  subnet_id : Option Nat
  dns_servers : String
  force : Bool
deriving DecidableEq, Repr

/-- The JSON body of a promote-lease request (no `force` field). -/
structure PromoteRequest where
  ip_address : String
  hw_address : String
  hostname : String
  subnet_id : Option Nat
  dns_servers : String
deriving DecidableEq, Repr

/-- The `jsonify(...), status` returns the two handlers can produce while
the lock is held (the lock-timeout 503 and transport-level 500 are outside
this pure model): 400, the idempotent 200 (no write), the 409 carrying the
existing reservation, the created 200, and the catch-all 500. -/
inductive RouteResult where
  | badRequest (error : String)
  | idempotent (message : String) (reservation : ResEntry)
  | conflict (error : String) (existing : ResEntry)
  | created (message : String) (reservation : Reservation)
  | serverError (error : String)
deriving DecidableEq, Repr

/-- What a handler run leaves behind: the HTTP response, the backend
configuration afterwards, and the mutation commands that were sent. -/
structure RouteOutput where
  response : RouteResult
  config : Dhcp4Config
  writes : List String
deriving DecidableEq, Repr

/-- The parameters accepted by `KeaClient.create_reservation`
(src/kea_client.py lines 340-341). -/
def keaClientCreateReservationParams : List String :=
  ["self", "ip_address", "hw_address", "hostname", "subnet_id"]

/-- The keyword arguments both handlers pass to
`client.create_reservation` (src/app.py lines 1092-1098 and
1256-1262). -/
def createReservationCallKwargs : List String :=
  ["ip_address", "hw_address", "hostname", "subnet_id", "option_data"]

/-- Keyword arguments of the call that the callee's signature does not
accept.  Python raises `TypeError` at the call site whenever this list is
non-empty, before the callee's body runs. -/
def createCallUnexpectedKwargs : List String :=
  createReservationCallKwargs.filter (fun k => !(keaClientCreateReservationParams.contains k))

/-- The `str(e)` of that `TypeError`, as caught by the handlers' outer
`except` (the exact Python wording varies slightly across versions; the
offending keyword is what identifies it). -/
def optionDataTypeErrorMsg : String :=
  "create_reservation() got an unexpected keyword argument option_data"

/-- The final step shared by both handlers: the call
`client.create_reservation(ip_address=..., hw_address=..., hostname=...,
subnet_id=..., option_data=...)`.  If the call site passes a keyword the
method does not accept, Python raises `TypeError` before entering the
method and the outer `except` turns it into a 500; otherwise the client
tier runs and its outcome is translated to a response. -/
def createStep (successMsg : String) (cfg : Dhcp4Config) (bk : BackendCtx)
    (ip hw hostname : String) (sid : Option Nat) : RouteOutput :=
  if createCallUnexpectedKwargs.isEmpty then
    match kcCreateReservation bk cfg ip hw hostname sid with
    | (.nativeOk r, w) => ⟨.created successMsg r, cfg, w⟩
    | (.cfgWrote cfg' r, w) => ⟨.created successMsg r, cfg', w⟩
    | (.failedNoWrite m, w) => ⟨.serverError m, cfg, w⟩
    | (.writeRejected m, w) => ⟨.serverError m, cfg, w⟩
  else ⟨.serverError optionDataTypeErrorMsg, cfg, []⟩

/-- 409 message for an IP reserved to a different MAC (quotes around
`force` elided). -/
def ipConflictMsg (ip existingMacLower : String) : String :=
  "DHCP reservation already exists for IP " ++ ip ++ " with a different MAC (" ++
    existingMacLower ++ "). Use force to overwrite."

/-- 409 message for a MAC holding a different IP. -/
def macConflictMsg (hw existingIp : String) : String :=
  "MAC " ++ hw ++ " already has a reservation for a different IP (" ++ existingIp ++
    "). Use force to overwrite."

/-- DNS validation and the create call, the tail of the create handler
(src/app.py lines 1071-1098): an invalid non-empty `dns_servers` is a 400;
otherwise proceed to the client call. -/
def dnsStep (cfg : Dhcp4Config) (bk : BackendCtx) (req : CreateRequest) : RouteOutput :=
  if req.dns_servers == "" then
    createStep ("Successfully created reservation for " ++ req.ip_address) cfg bk
      req.ip_address req.hw_address req.hostname req.subnet_id
  else if (validate_dns_servers req.dns_servers).valid then
    createStep ("Successfully created reservation for " ++ req.ip_address) cfg bk
      req.ip_address req.hw_address req.hostname req.subnet_id
  else
    ⟨.badRequest ("Invalid DNS servers: " ++ (validate_dns_servers req.dns_servers).errMsg),
      cfg, []⟩

/-- The MAC-conflict check of the create handler (src/app.py lines
1045-1069): first reservation whose MAC equals the requested one
(case-insensitively); if it holds a different IP and `force` is false,
409 with that reservation attached, else continue. -/
def macCheckStep (cfg : Dhcp4Config) (bk : BackendCtx) (req : CreateRequest) : RouteOutput :=
  match (get_reservations cfg req.subnet_id).find?
      (fun r => strLower r.hwAddress == strLower req.hw_address) with
  | some m =>
    if m.ipAddress != req.ip_address && !req.force then
      ⟨.conflict (macConflictMsg req.hw_address m.ipAddress) m, cfg, []⟩
    else dnsStep cfg bk req
  | none => dnsStep cfg bk req

/-- The create-reservation handler body under the acquired lock
(src/app.py lines 972-1103): validate presence of ip and mac; fetch
reservations; on the first reservation with the requested IP either return
the idempotent 200 (same MAC, case-insensitively), continue when forced,
or 409 with the existing reservation; then the MAC check, DNS validation
and the client call. -/
def create_route (cfg : Dhcp4Config) (bk : BackendCtx) (req : CreateRequest) : RouteOutput :=
  if req.ip_address == "" || req.hw_address == "" then
    ⟨.badRequest "ip_address and hw_address are required", cfg, []⟩
  else
    match (get_reservations cfg req.subnet_id).find?
        (fun r => r.ipAddress == req.ip_address) with
    | some r =>
      if strLower r.hwAddress == strLower req.hw_address then
        ⟨.idempotent ("Reservation already exists for " ++ req.ip_address ++ " with this MAC") r,
          cfg, []⟩
      else if req.force then macCheckStep cfg bk req
      else ⟨.conflict (ipConflictMsg req.ip_address (strLower r.hwAddress)) r, cfg, []⟩
    | none => macCheckStep cfg bk req

/-- The promote-lease handler body (src/app.py lines 1199-1276): validate
presence; validate DNS servers (before the lock); under the lock, a 400 if
any reservation already holds the requested IP, else the client call. -/
def promote_route (cfg : Dhcp4Config) (bk : BackendCtx) (req : PromoteRequest) : RouteOutput :=
  if req.ip_address == "" || req.hw_address == "" then
    ⟨.badRequest "ip_address and hw_address are required", cfg, []⟩
  else if req.dns_servers != "" && !(validate_dns_servers req.dns_servers).valid then
    ⟨.badRequest ("Invalid DNS servers: " ++ (validate_dns_servers req.dns_servers).errMsg),
      cfg, []⟩
  else
    match (get_reservations cfg req.subnet_id).find?
        (fun r => r.ipAddress == req.ip_address) with
    | some _ =>
      ⟨.badRequest ("A reservation already exists for IP " ++ req.ip_address ++
          ". Please choose a different IP address."), cfg, []⟩
    | none =>
      createStep ("Successfully promoted " ++ req.ip_address ++ " to reservation") cfg bk
        req.ip_address req.hw_address req.hostname req.subnet_id

/-- A handler response produced before the client call is ever attempted:
the 400s, the idempotent 200 and the 409s.  (`created` and `serverError`
are the two outcomes of attempting the call.) -/
def shortCircuited : RouteResult → Bool
  | .badRequest _ => true
  | .idempotent _ _ => true
  | .conflict _ _ => true
  | .created _ _ => false
  | .serverError _ => false

/-! ## Lease pagination (src/kea_client.py `_get_leases_by_subnet_paged`,
lines 216-273) -/

/-- The backend's `lease4-get-page` behaviour on a subnet whose lease set
is the strictly-ascending address list `L` (addresses as numbers): the
leases with address strictly after the cursor, in order, capped at
`limit`.  The cursor string "0.0.0.0" is address 0. -/
def leasePage (L : List Nat) (fromA limit : Nat) : List Nat :=
  (L.filter (fun ip => decide (fromA < ip))).take limit

/-- The page loop of `_get_leases_by_subnet_paged`, returning the
collected leases and the number of `lease4-get-page` round trips.  Every
iteration sends one command; an empty page stops; a short page stops; the
cursor becomes the last address of a full page.  (`fuel` bounds the
recursion; the theorems below supply enough for the loop to reach its own
stopping condition.  The source's guard for a page entry with a missing
`ip-address` cannot fire here since every modelled lease has an
address.) -/
def pagedWalk (L : List Nat) (limit : Nat) : Nat → Nat → List Nat × Nat
  | _, 0 => ([], 0)
  | fromA, fuel + 1 =>
    let page := leasePage L fromA limit
    if page.isEmpty then ([], 1)
    else if page.length < limit then (page, 1)
    else
      match page.getLast? with
      | none => (page, 1)
      | some last =>
        let rest := pagedWalk L limit last fuel
        (page ++ rest.1, rest.2 + 1)

/-- `_get_leases_by_subnet_paged`: the loop with the source's fixed cursor
start "0.0.0.0" and fixed page size `limit = 1000` (line 228). -/
def getLeasesBySubnetPaged (L : List Nat) (fuel : Nat) : List Nat × Nat :=
  pagedWalk L 1000 0 fuel

/-! ## The tier-3 failure of `get_leases` (src/kea_client.py lines
185-202) and `_get_lease_database_info` (lines 275-292) -/

/-- `_get_lease_database_info`: the configured lease-storage type,
defaulting to memfile. -/
def leaseDatabaseType (cfg : Dhcp4Config) : String := cfg.leaseDbType.getD "memfile"

/-- The descriptive message built at lines 193-197 (its trailing JSON
snippet is elided). -/
def leaseCmdsDescriptiveMsg (ty : String) : String :=
  "KEA lease commands not available. Your KEA uses " ++ ty ++
    " backend. To enable lease queries, add the lease_cmds hook library to your KEA configuration"

/-- The generic message raised at lines 199-202 (quotes elided). -/
def leaseCmdsGenericMsg : String :=
  "Unable to retrieve leases. KEA lease commands (lease4-get-all, lease4-get-page) are not supported. Please enable the lease_cmds hook library in your KEA configuration."

/-- The message `get_leases` raises once both lease commands are
unavailable (lines 190-202).  `configFetch` is the outcome of the
`config-get` inside `_get_lease_database_info`.  The inner `try` block
either propagates that failure or raises the descriptive exception built
from the storage type — and both are caught by the directly enclosing
`except Exception as db_error`, which raises the generic message. -/
def getLeasesNoCommandsFailure (configFetch : Except String Dhcp4Config) : String :=
  let inner : Except String Empty :=
    match configFetch with
    | .error e => .error e
    | .ok cfg => .error (leaseCmdsDescriptiveMsg (leaseDatabaseType cfg))
  match inner with
  | .error _dbError => leaseCmdsGenericMsg
  | .ok e => e.elim

/-! ## Claim C8 -/

/-- C8: when neither lease command is supported, `get_leases` always
raises the generic message.  At a backend whose storage-type lookup
succeeds with type `postgresql`, the raised message is still the generic
one: it names the `lease_cmds` hook but does not contain the storage type,
because the descriptive raise sits inside the same `try` whose `except`
replaces it.  (The claim's descriptive-with-type behaviour never
happens.) -/
theorem C8_capability_error_generic :
    getLeasesNoCommandsFailure (.ok ⟨[], some "postgresql"⟩) = leaseCmdsGenericMsg ∧
    strContains leaseCmdsGenericMsg "lease_cmds" = true ∧
    strContains leaseCmdsGenericMsg "postgresql" = false ∧
    strContains (leaseCmdsDescriptiveMsg (leaseDatabaseType ⟨[], some "postgresql"⟩))
      "postgresql" = true := by
  refine ⟨rfl, by decide, by decide, by decide⟩

/-! ## Claim C3 -/

/-- State for C3: one subnet holding the reservation
(192.168.1.50, aa:bb:cc:dd:ee:01). -/
def c3cfg : Dhcp4Config :=
  ⟨[⟨some 1, "192.168.1.0/24", [⟨"192.168.1.50", "aa:bb:cc:dd:ee:01", ""⟩]⟩], none⟩

/-- C3 evaluated on the code: a forced create of (192.168.1.50,
aa:bb:cc:dd:ee:02) over the existing (192.168.1.50, aa:bb:cc:dd:ee:01)
passes both conflict checks, but the handler's client call raises
`TypeError` (unexpected keyword `option_data`), so the request ends in a
500, no mutation command is sent, and the stored reservation is still
(192.168.1.50, aa:bb:cc:dd:ee:01) — not the claimed success with
(ip, mac2). -/
theorem C3_force_overwrite_returns_500 :
    create_route c3cfg ⟨.unsupported, true⟩
        ⟨"192.168.1.50", "aa:bb:cc:dd:ee:02", "", none, "", true⟩ =
      ⟨.serverError optionDataTypeErrorMsg, c3cfg, []⟩ ∧
    get_reservations c3cfg none =
      [⟨"192.168.1.50", "aa:bb:cc:dd:ee:01", "", some 1, "192.168.1.0/24"⟩] := by
  refine ⟨by decide, by decide⟩

/-! ## Claim C9 -/

/-- Empty-reservation starting state for C9. -/
def c9cfg : Dhcp4Config := ⟨[⟨some 1, "192.168.1.0/24", []⟩], none⟩

/-- First of the two competing requests. -/
def c9reqA : CreateRequest := ⟨"192.168.1.50", "aa:bb:cc:dd:ee:01", "", none, "", false⟩

/-- Second of the two competing requests (same IP, different MAC). -/
def c9reqB : CreateRequest := ⟨"192.168.1.50", "aa:bb:cc:dd:ee:02", "", none, "", false⟩

/-- C9 evaluated on the code: grant the claim its serialization (the file
lock is the external `filelock` library; the two critical sections are
modelled as running one after the other, the second seeing the state the
first left).  Neither call succeeds and neither is a 409: both end in the
`TypeError` 500, no write is ever sent, and the state is unchanged —
not the claimed one-success-one-conflict outcome.  (The other
serialization order is this one with the two MAC constants swapped.) -/
theorem C9_serialized_runs_both_500 :
    create_route c9cfg ⟨.unsupported, true⟩ c9reqA =
      ⟨.serverError optionDataTypeErrorMsg, c9cfg, []⟩ ∧
    create_route (create_route c9cfg ⟨.unsupported, true⟩ c9reqA).config
        ⟨.unsupported, true⟩ c9reqB =
      ⟨.serverError optionDataTypeErrorMsg, c9cfg, []⟩ := by
  refine ⟨by decide, by decide⟩

/-! ## Claim C10 -/

/-- The handlers pass `option_data`, which the client method does not
accept, so the call itself raises before the client tier can run: the
shared final step is always the 500 with the unchanged configuration and
no writes. -/
theorem createStep_typeError (successMsg : String) (cfg : Dhcp4Config) (bk : BackendCtx)
    (ip hw hostname : String) (sid : Option Nat) :
    createStep successMsg cfg bk ip hw hostname sid =
      ⟨.serverError optionDataTypeErrorMsg, cfg, []⟩ := rfl

/-- Branch analysis of `dnsStep`: every outcome is either a short-circuit
or the `TypeError` 500, and nothing is written. -/
theorem dnsStep_spec (cfg : Dhcp4Config) (bk : BackendCtx) (req : CreateRequest) :
    (shortCircuited (dnsStep cfg bk req).response = false →
      (dnsStep cfg bk req).response = .serverError optionDataTypeErrorMsg) ∧
    (dnsStep cfg bk req).config = cfg ∧ (dnsStep cfg bk req).writes = [] := by
  unfold dnsStep
  split
  · rw [createStep_typeError]; exact ⟨fun _ => rfl, rfl, rfl⟩
  · split
    · rw [createStep_typeError]; exact ⟨fun _ => rfl, rfl, rfl⟩
    · exact ⟨fun h => by simp [shortCircuited] at h, rfl, rfl⟩

/-- Branch analysis of `macCheckStep`: same shape as `dnsStep_spec`. -/
theorem macCheckStep_spec (cfg : Dhcp4Config) (bk : BackendCtx) (req : CreateRequest) :
    (shortCircuited (macCheckStep cfg bk req).response = false →
      (macCheckStep cfg bk req).response = .serverError optionDataTypeErrorMsg) ∧
    (macCheckStep cfg bk req).config = cfg ∧ (macCheckStep cfg bk req).writes = [] := by
  unfold macCheckStep
  split
  · split
    · exact ⟨fun h => by simp [shortCircuited] at h, rfl, rfl⟩
    · exact dnsStep_spec cfg bk req
  · exact dnsStep_spec cfg bk req

/-- Branch analysis of the whole create handler. -/
theorem create_route_spec (cfg : Dhcp4Config) (bk : BackendCtx) (req : CreateRequest) :
    (shortCircuited (create_route cfg bk req).response = false →
      (create_route cfg bk req).response = .serverError optionDataTypeErrorMsg) ∧
    (create_route cfg bk req).config = cfg ∧ (create_route cfg bk req).writes = [] := by
  unfold create_route
  split
  · exact ⟨fun h => by simp [shortCircuited] at h, rfl, rfl⟩
  · split
    · split
      · exact ⟨fun h => by simp [shortCircuited] at h, rfl, rfl⟩
      · split
        · exact macCheckStep_spec cfg bk req
        · exact ⟨fun h => by simp [shortCircuited] at h, rfl, rfl⟩
    · exact macCheckStep_spec cfg bk req

/-- Branch analysis of the whole promote handler. -/
theorem promote_route_spec (cfg : Dhcp4Config) (bk : BackendCtx) (req : PromoteRequest) :
    (shortCircuited (promote_route cfg bk req).response = false →
      (promote_route cfg bk req).response = .serverError optionDataTypeErrorMsg) ∧
    (promote_route cfg bk req).config = cfg ∧ (promote_route cfg bk req).writes = [] := by
  unfold promote_route
  split
  · exact ⟨fun h => by simp [shortCircuited] at h, rfl, rfl⟩
  · split
    · exact ⟨fun h => by simp [shortCircuited] at h, rfl, rfl⟩
    · split
      · exact ⟨fun h => by simp [shortCircuited] at h, rfl, rfl⟩
      · rw [createStep_typeError]; exact ⟨fun _ => rfl, rfl, rfl⟩

/-- C10: the call-site keyword set minus the method's parameter set is
exactly `option_data`, so for every create or promote request that is not
short-circuited earlier (idempotent 200, 409 conflict, or a 400) the
handler's client call raises `TypeError`, the request returns a 500, and
no reservation is created: the configuration is unchanged and no mutation
command was sent — regardless of whether DNS servers were supplied. -/
theorem C10_option_data_call_always_500 :
    createCallUnexpectedKwargs = ["option_data"] ∧
    (∀ (cfg : Dhcp4Config) (bk : BackendCtx) (req : CreateRequest),
      (shortCircuited (create_route cfg bk req).response = false →
        (create_route cfg bk req).response = .serverError optionDataTypeErrorMsg) ∧
      (create_route cfg bk req).config = cfg ∧ (create_route cfg bk req).writes = []) ∧
    (∀ (cfg : Dhcp4Config) (bk : BackendCtx) (req : PromoteRequest),
      (shortCircuited (promote_route cfg bk req).response = false →
        (promote_route cfg bk req).response = .serverError optionDataTypeErrorMsg) ∧
      (promote_route cfg bk req).config = cfg ∧ (promote_route cfg bk req).writes = []) :=
  ⟨rfl, create_route_spec, promote_route_spec⟩

/-- Witness for C10: a concrete non-short-circuited create (empty
reservation state, no DNS servers) and promote, both ending in the
`TypeError` 500. -/
theorem C10_option_data_call_always_500_witness :
    (create_route c9cfg ⟨.ok, true⟩
        ⟨"192.168.1.60", "aa:bb:cc:dd:ee:06", "", none, "", false⟩).response =
      .serverError optionDataTypeErrorMsg ∧
    (promote_route c9cfg ⟨.ok, true⟩
        ⟨"192.168.1.61", "aa:bb:cc:dd:ee:07", "", none, ""⟩).response =
      .serverError optionDataTypeErrorMsg :=
  ⟨(C10_option_data_call_always_500.2.1 c9cfg ⟨.ok, true⟩
      ⟨"192.168.1.60", "aa:bb:cc:dd:ee:06", "", none, "", false⟩).1 (by decide),
   (C10_option_data_call_always_500.2.2 c9cfg ⟨.ok, true⟩
      ⟨"192.168.1.61", "aa:bb:cc:dd:ee:07", "", none, ""⟩).1 (by decide)⟩

/-! ## Claims C1 and C2 -/

/-- C1: whenever the reservation state binds the requested IP to the
requested MAC (case-insensitively) — and to no other MAC, the reads being
keyed by IP — the create handler returns the idempotent 200 carrying that
existing reservation, leaves the configuration unchanged and sends no
mutation command. -/
theorem C1_idempotent_create (cfg : Dhcp4Config) (bk : BackendCtx) (req : CreateRequest)
    (hip : req.ip_address ≠ "") (hhw : req.hw_address ≠ "")
    (hmem : ∃ r ∈ get_reservations cfg req.subnet_id,
        r.ipAddress = req.ip_address ∧ strLower r.hwAddress = strLower req.hw_address)
    (huniq : ∀ r ∈ get_reservations cfg req.subnet_id,
        r.ipAddress = req.ip_address → strLower r.hwAddress = strLower req.hw_address) :
    ∃ r ∈ get_reservations cfg req.subnet_id,
      r.ipAddress = req.ip_address ∧ strLower r.hwAddress = strLower req.hw_address ∧
      create_route cfg bk req =
        ⟨.idempotent ("Reservation already exists for " ++ req.ip_address ++ " with this MAC") r,
          cfg, []⟩ := by
  have hcond : (req.ip_address == "" || req.hw_address == "") = false := by
    simp [hip, hhw]
  cases hfind : (get_reservations cfg req.subnet_id).find?
      (fun r => r.ipAddress == req.ip_address) with
  | none =>
    exfalso
    obtain ⟨r, hr, hrip, _⟩ := hmem
    have hno := List.find?_eq_none.mp hfind r hr
    simp [hrip] at hno
  | some r =>
    have hp := List.find?_some hfind
    have hmemr := List.mem_of_find?_eq_some hfind
    have hrip : r.ipAddress = req.ip_address := by simpa using hp
    have hrmac := huniq r hmemr hrip
    refine ⟨r, hmemr, hrip, hrmac, ?_⟩
    simp only [create_route, hcond, Bool.false_eq_true, if_false, hfind]
    rw [if_pos (by simp [hrmac])]

/-- C2: whenever the reservation state binds the requested IP to a single
MAC `mac1` that differs (case-insensitively) from the requested one and
`force` is false, the create handler returns the 409 conflict carrying the
existing reservation, leaves the configuration unchanged and sends no
mutation command: the stored binding for the IP remains `mac1`. -/
theorem C2_conflict_reject (cfg : Dhcp4Config) (bk : BackendCtx) (req : CreateRequest)
    (mac1 : String)
    (hip : req.ip_address ≠ "") (hhw : req.hw_address ≠ "")
    (hforce : req.force = false)
    (hmem : ∃ r ∈ get_reservations cfg req.subnet_id,
        r.ipAddress = req.ip_address ∧ strLower r.hwAddress = strLower mac1)
    (huniq : ∀ r ∈ get_reservations cfg req.subnet_id,
        r.ipAddress = req.ip_address → strLower r.hwAddress = strLower mac1)
    (hneq : strLower mac1 ≠ strLower req.hw_address) :
    ∃ r ∈ get_reservations cfg req.subnet_id,
      r.ipAddress = req.ip_address ∧ strLower r.hwAddress = strLower mac1 ∧
      create_route cfg bk req =
        ⟨.conflict (ipConflictMsg req.ip_address (strLower r.hwAddress)) r, cfg, []⟩ := by
  have hcond : (req.ip_address == "" || req.hw_address == "") = false := by
    simp [hip, hhw]
  cases hfind : (get_reservations cfg req.subnet_id).find?
      (fun r => r.ipAddress == req.ip_address) with
  | none =>
    exfalso
    obtain ⟨r, hr, hrip, _⟩ := hmem
    have hno := List.find?_eq_none.mp hfind r hr
    simp [hrip] at hno
  | some r =>
    have hp := List.find?_some hfind
    have hmemr := List.mem_of_find?_eq_some hfind
    have hrip : r.ipAddress = req.ip_address := by simpa using hp
    have hrmac := huniq r hmemr hrip
    refine ⟨r, hmemr, hrip, hrmac, ?_⟩
    simp only [create_route, hcond, Bool.false_eq_true, if_false, hfind]
    rw [if_neg (by simp [hrmac, hneq]), if_neg (by simp [hforce])]

/-- State for the C1 and C2 witnesses: the stored reservation
(192.168.1.50, AA:BB:CC:DD:EE:01), upper-case on purpose. -/
def w12cfg : Dhcp4Config :=
  ⟨[⟨some 1, "192.168.1.0/24", [⟨"192.168.1.50", "AA:BB:CC:DD:EE:01", "host1"⟩]⟩], none⟩

/-- Witness request for C1: same IP, same MAC in lower case. -/
def w1req : CreateRequest := ⟨"192.168.1.50", "aa:bb:cc:dd:ee:01", "", none, "", false⟩

/-- Witness for C1 at the concrete state and request. -/
theorem C1_idempotent_create_witness :
    ∃ r ∈ get_reservations w12cfg w1req.subnet_id,
      r.ipAddress = w1req.ip_address ∧ strLower r.hwAddress = strLower w1req.hw_address ∧
      create_route w12cfg ⟨.ok, true⟩ w1req =
        ⟨.idempotent ("Reservation already exists for " ++ w1req.ip_address ++ " with this MAC") r,
          w12cfg, []⟩ :=
  C1_idempotent_create w12cfg ⟨.ok, true⟩ w1req (by decide) (by decide) (by decide) (by decide)

/-- Witness request for C2: same IP, different MAC, no force. -/
def w2req : CreateRequest := ⟨"192.168.1.50", "aa:bb:cc:dd:ee:02", "", none, "", false⟩

/-- Witness for C2 at the concrete state and request. -/
theorem C2_conflict_reject_witness :
    ∃ r ∈ get_reservations w12cfg w2req.subnet_id,
      r.ipAddress = w2req.ip_address ∧ strLower r.hwAddress = strLower "AA:BB:CC:DD:EE:01" ∧
      create_route w12cfg ⟨.ok, true⟩ w2req =
        ⟨.conflict (ipConflictMsg w2req.ip_address (strLower r.hwAddress)) r, w12cfg, []⟩ :=
  C2_conflict_reject w12cfg ⟨.ok, true⟩ w2req "AA:BB:CC:DD:EE:01"
    (by decide) (by decide) (by decide) (by decide) (by decide) (by decide)

/-- The configuration produced by the rewrite fallback: subnet `i` with
the new reservation appended to its list, everything else unchanged. -/
def appendResAt (cfg : Dhcp4Config) (i : Nat) (res : Reservation) : Dhcp4Config :=
  { cfg with
    subnet4 := cfg.subnet4.set i
      { cfg.subnet4.getD i dfltSubnet with
        reservations := (cfg.subnet4.getD i dfltSubnet).reservations ++ [res] } }

/-! ## Claim C4 -/

/-- Counterexample to C4 as stated: a backend that rejects the native
command as unsupported and accepts configuration writes, but whose target
subnet already holds a reservation with the requested IP.  The fallback
does not remove the literal duplicate and write — it raises before any
write, so the end-to-end create fails. -/
theorem C4_counterexample :
    kcCreateReservation ⟨.unsupported, true⟩ c3cfg
        "192.168.1.50" "aa:bb:cc:dd:ee:02" "" none =
      (.failedNoWrite "Reservation already exists for 192.168.1.50 or aa:bb:cc:dd:ee:02",
       ["reservation-add"]) := by decide

/-- C4 (amended): when the native add-reservation command signals
Unsupported, create-reservation falls back to the configuration rewrite,
which — provided the target subnet holds no literal duplicate (no entry
with the same IP or the same MAC; the source raises on one instead of
removing it) — appends the new reservation to the target subnet's
reservations list and writes the whole modified configuration back with
`config-set`, so the end-to-end create succeeds on a backend that accepts
the configuration write. -/
theorem C4_unsupported_fallback (cfg : Dhcp4Config) (ip hw hostname : String)
    (sid : Option Nat) (i : Nat)
    (hidx : findTargetIdx cfg.subnet4 sid = some i)
    (hnodup : ∀ r ∈ (cfg.subnet4.getD i dfltSubnet).reservations,
        r.ipAddress ≠ ip ∧ r.hwAddress ≠ hw) :
    kcCreateReservation ⟨.unsupported, true⟩ cfg ip hw hostname sid =
      (.cfgWrote (appendResAt cfg i ⟨ip, hw, hostname⟩) ⟨ip, hw, hostname⟩,
       ["reservation-add", "config-set"]) := by
  have hany : ((cfg.subnet4.getD i dfltSubnet).reservations.any
      (fun r => r.ipAddress == ip || r.hwAddress == hw)) = false := by
    rw [List.any_eq_false]
    intro r hr
    obtain ⟨h1, h2⟩ := hnodup r hr
    simp [h1, h2]
  simp only [kcCreateReservation, createReservationViaConfig, hidx]
  rw [hany]
  simp [appendResAt]

/-- Witness for C4 (amended) at a concrete configuration with a free
target subnet. -/
theorem C4_unsupported_fallback_witness :
    kcCreateReservation ⟨.unsupported, true⟩ w12cfg
        "192.168.1.60" "aa:bb:cc:dd:ee:06" "host6" (some 1) =
      (.cfgWrote (appendResAt w12cfg 0 ⟨"192.168.1.60", "aa:bb:cc:dd:ee:06", "host6"⟩)
        ⟨"192.168.1.60", "aa:bb:cc:dd:ee:06", "host6"⟩,
       ["reservation-add", "config-set"]) :=
  C4_unsupported_fallback w12cfg "192.168.1.60" "aa:bb:cc:dd:ee:06" "host6" (some 1) 0
    (by decide) (by decide)

/-! ## Claim C7 -/

/-- First subnet of the C7 counterexample configuration. -/
def c7sub1 : Subnet := ⟨some 1, "10.0.1.0/24", []⟩

/-- Second subnet of the C7 counterexample configuration. -/
def c7sub2 : Subnet := ⟨some 2, "10.0.2.0/24", []⟩

/-- Counterexample to C7 as stated: with two subnets and no subnet
identifier given, the configuration-rewrite create appends to the LAST
subnet; the first subnet is untouched. -/
theorem C7_counterexample :
    createReservationViaConfig ⟨[c7sub1, c7sub2], none⟩ true
        "10.0.2.5" "aa:bb:cc:dd:ee:05" "" none =
      (.cfgWrote
        ⟨[c7sub1, ⟨some 2, "10.0.2.0/24", [⟨"10.0.2.5", "aa:bb:cc:dd:ee:05", ""⟩]⟩], none⟩
        ⟨"10.0.2.5", "aa:bb:cc:dd:ee:05", ""⟩,
       ["config-set"]) := by decide

/-- Characterization of the first-match search used when a subnet id is
given: the returned index holds a subnet with that id and every earlier
index does not. -/
theorem findSubnetIdx_first (s : Nat) :
    ∀ (subnets : List Subnet) (i : Nat), findSubnetIdx subnets s = some i →
      (subnets.getD i dfltSubnet).id = some s ∧
      ∀ j, j < i → (subnets.getD j dfltSubnet).id ≠ some s := by
  intro subnets
  induction subnets with
  | nil => intro i h; simp [findSubnetIdx] at h
  | cons sn rest ih =>
    intro i h
    by_cases hid : (sn.id == some s) = true
    · simp only [findSubnetIdx, hid, if_true, Option.some.injEq] at h
      subst h
      refine ⟨by simpa using hid, ?_⟩
      intro j hj
      exact absurd hj (Nat.not_lt_zero j)
    · simp only [findSubnetIdx, hid, Bool.false_eq_true, if_false] at h
      obtain ⟨i', hi', rfl⟩ := Option.map_eq_some'.mp h
      obtain ⟨h1, h2⟩ := ih i' hi'
      refine ⟨by simpa using h1, ?_⟩
      intro j hj
      cases j with
      | zero => simpa using hid
      | succ j' =>
        have := h2 j' (by omega)
        simpa using this

/-- C7 (amended): in the configuration-rewrite fallback, when a subnet
identifier is given the target subnet is the FIRST one whose identifier
matches exactly; when no identifier is given the target is the LAST subnet
in the configuration (the loop keeps reassigning and never breaks); if no
subnet qualifies, the operation fails without issuing any write. -/
theorem C7_target_subnet_selection :
    (∀ (subnets : List Subnet) (s i : Nat), findTargetIdx subnets (some s) = some i →
      (subnets.getD i dfltSubnet).id = some s ∧
      ∀ j, j < i → (subnets.getD j dfltSubnet).id ≠ some s) ∧
    (∀ (subnets : List Subnet), subnets ≠ [] →
      findTargetIdx subnets none = some (subnets.length - 1)) ∧
    (∀ (cfg : Dhcp4Config) (cs : Bool) (ip hw hn : String) (sid : Option Nat),
      findTargetIdx cfg.subnet4 sid = none →
      createReservationViaConfig cfg cs ip hw hn sid =
        (.failedNoWrite (subnetNotFoundMsg sid), [])) := by
  refine ⟨?_, ?_, ?_⟩
  · intro subnets s i h
    exact findSubnetIdx_first s subnets i h
  · intro subnets h
    cases subnets with
    | nil => exact absurd rfl h
    | cons sn rest => rfl
  · intro cfg cs ip hw hn sid h
    simp [createReservationViaConfig, h]

/-- Witness for C7 at concrete inputs: the exact match (searching id 2
finds index 1, not index 0), the no-id case targeting the last subnet, and
the not-found failure. -/
theorem C7_target_subnet_selection_witness :
    ((([c7sub1, c7sub2] : List Subnet).getD 1 dfltSubnet).id = some 2 ∧
      ∀ j, j < 1 → (([c7sub1, c7sub2] : List Subnet).getD j dfltSubnet).id ≠ some 2) ∧
    findTargetIdx [c7sub1, c7sub2] none = some 1 ∧
    createReservationViaConfig ⟨[], none⟩ true "10.0.0.1" "aa:bb:cc:dd:ee:09" "" (some 5) =
      (.failedNoWrite (subnetNotFoundMsg (some 5)), []) :=
  ⟨C7_target_subnet_selection.1 [c7sub1, c7sub2] 2 1 (by decide),
   C7_target_subnet_selection.2.1 [c7sub1, c7sub2] (by decide),
   C7_target_subnet_selection.2.2 ⟨[], none⟩ true "10.0.0.1" "aa:bb:cc:dd:ee:09" "" (some 5)
     (by decide)⟩

/-! ## Claim C6 -/

/-- One unfolding step of the page loop. -/
theorem pagedWalk_succ (L : List Nat) (limit fromA fuel : Nat) :
    pagedWalk L limit fromA (fuel + 1) =
      (let page := leasePage L fromA limit
       if page.isEmpty then ([], 1)
       else if page.length < limit then (page, 1)
       else match page.getLast? with
         | none => (page, 1)
         | some last =>
           let rest := pagedWalk L limit last fuel
           (page ++ rest.1, rest.2 + 1)) := rfl

/-- In a strictly ascending list the last element bounds every member. -/
theorem sorted_mem_le_getLast {l : List Nat} {a x : Nat}
    (hs : List.Pairwise (· < ·) l) (hl : l.getLast? = some a) (hx : x ∈ l) : x ≤ a := by
  obtain ⟨ys, rfl⟩ := List.getLast?_eq_some_iff.mp hl
  rcases List.mem_append.mp hx with h | h
  · exact Nat.le_of_lt ((List.pairwise_append.mp hs).2.2 x h a (by simp))
  · simp only [List.mem_singleton] at h
    omega

/-- Filtering a strictly ascending concatenation by "greater than the last
element of the first part" leaves exactly the second part. -/
theorem filter_gt_getLast {l₁ l₂ : List Nat} {a : Nat}
    (hs : List.Pairwise (· < ·) (l₁ ++ l₂)) (hl : l₁.getLast? = some a) :
    (l₁ ++ l₂).filter (fun x => decide (a < x)) = l₂ := by
  obtain ⟨hp1, hp2, hcross⟩ := List.pairwise_append.mp hs
  rw [List.filter_append]
  have h1 : l₁.filter (fun x => decide (a < x)) = [] := by
    rw [List.filter_eq_nil_iff]
    intro x hx
    have hxa : x ≤ a := sorted_mem_le_getLast hp1 hl hx
    simp only [decide_eq_true_eq]
    omega
  have h2 : l₂.filter (fun x => decide (a < x)) = l₂ := by
    rw [List.filter_eq_self]
    intro x hx
    have : a < x := hcross a (List.mem_of_getLast?_eq_some hl) x hx
    simpa
  rw [h1, h2, List.nil_append]

/-- Full correctness of the page loop on a strictly ascending lease table:
with enough fuel it returns precisely the leases after the cursor, in
`(remaining / limit) + 1` round trips — the extra trip being the one that
observes the stopping condition (a short or empty page). -/
theorem pagedWalk_eq (L : List Nat) (limit : Nat) (hlim : 0 < limit)
    (hs : List.Sorted (· < ·) L) :
    ∀ (fuel fromA : Nat),
      (L.filter (fun x => decide (fromA < x))).length / limit + 1 ≤ fuel →
      pagedWalk L limit fromA fuel =
        (L.filter (fun x => decide (fromA < x)),
         (L.filter (fun x => decide (fromA < x))).length / limit + 1) := by
  intro fuel
  induction fuel with
  | zero => intro fromA h; exact absurd h (Nat.not_succ_le_zero _)
  | succ fuel ih =>
    intro fromA hfuel
    rw [pagedWalk_succ]
    simp only [leasePage]
    by_cases hRnil : L.filter (fun x => decide (fromA < x)) = []
    · rw [hRnil]
      simp
    · by_cases hlen : (L.filter (fun x => decide (fromA < x))).length < limit
      · rw [List.take_of_length_le (Nat.le_of_lt hlen)]
        rw [if_neg (fun h => hRnil (List.isEmpty_iff.mp h)), if_pos hlen,
          Nat.div_eq_of_lt hlen]
      · have hge : limit ≤ (L.filter (fun x => decide (fromA < x))).length :=
          Nat.le_of_not_lt hlen
        have hplen : ((L.filter (fun x => decide (fromA < x))).take limit).length = limit := by
          rw [List.length_take]
          omega
        have hpne : (L.filter (fun x => decide (fromA < x))).take limit ≠ [] := by
          intro h
          rw [h] at hplen
          simp at hplen
          omega
        cases hlast : ((L.filter (fun x => decide (fromA < x))).take limit).getLast? with
        | none => exact absurd (List.getLast?_eq_none_iff.mp hlast) hpne
        | some last =>
          have hmemp : last ∈ (L.filter (fun x => decide (fromA < x))).take limit :=
            List.mem_of_getLast?_eq_some hlast
          have hmemR : last ∈ L.filter (fun x => decide (fromA < x)) :=
            (List.take_sublist limit _).subset hmemp
          have hfromlt : fromA < last := by
            have := List.of_mem_filter hmemR
            simpa using this
          have hsR : List.Pairwise (· < ·) (L.filter (fun x => decide (fromA < x))) :=
            hs.filter _
          have hkey : L.filter (fun x => decide (last < x)) =
              (L.filter (fun x => decide (fromA < x))).drop limit := by
            have hff : (L.filter (fun x => decide (fromA < x))).filter
                (fun x => decide (last < x)) = L.filter (fun x => decide (last < x)) := by
              rw [List.filter_filter]
              congr 1
              funext a
              by_cases h : last < a
              · have : fromA < a := Nat.lt_trans hfromlt h
                simp [h, this]
              · simp [h]
            rw [← hff]
            have hsplit := List.take_append_drop limit (L.filter (fun x => decide (fromA < x)))
            have hsR' : List.Pairwise (· < ·)
                ((L.filter (fun x => decide (fromA < x))).take limit ++
                  (L.filter (fun x => decide (fromA < x))).drop limit) := by
              rw [hsplit]; exact hsR
            calc (L.filter (fun x => decide (fromA < x))).filter (fun x => decide (last < x))
                = ((L.filter (fun x => decide (fromA < x))).take limit ++
                    (L.filter (fun x => decide (fromA < x))).drop limit).filter
                    (fun x => decide (last < x)) := by rw [hsplit]
              _ = (L.filter (fun x => decide (fromA < x))).drop limit :=
                  filter_gt_getLast hsR' hlast
          have hdiv : (L.filter (fun x => decide (fromA < x))).length / limit =
              ((L.filter (fun x => decide (fromA < x))).length - limit) / limit + 1 :=
            Nat.div_eq_sub_div hlim hge
          have hfuel' : (L.filter (fun x => decide (last < x))).length / limit + 1 ≤ fuel := by
            rw [hkey, List.length_drop]
            omega
          have hih := ih last hfuel'
          rw [if_neg (fun h => hpne (List.isEmpty_iff.mp h)), if_neg (by omega)]
          show ((L.filter (fun x => decide (fromA < x))).take limit ++
              (pagedWalk L limit last fuel).1,
            (pagedWalk L limit last fuel).2 + 1) = _
          rw [hih, hkey]
          rw [List.take_append_drop limit (L.filter (fun x => decide (fromA < x)))]
          rw [List.length_drop]
          have hcount : ((L.filter (fun x => decide (fromA < x))).length - limit) / limit + 1 + 1 =
              (L.filter (fun x => decide (fromA < x))).length / limit + 1 := by omega
          rw [hcount]

/-- The ascending address table 1, 2, ..., n. -/
def ascList (n : Nat) : List Nat := (List.range n).map (· + 1)

/-- `ascList` is strictly ascending. -/
theorem ascList_sorted (n : Nat) : List.Sorted (· < ·) (ascList n) :=
  (List.sorted_lt_range n).map (· + 1) (fun _ _ h => Nat.add_lt_add_right h 1)

/-- Every entry of `ascList` is a positive address. -/
theorem ascList_pos (n : Nat) : ∀ x ∈ ascList n, 0 < x := by
  intro x hx
  simp only [ascList, List.mem_map, List.mem_range] at hx
  obtain ⟨a, _, rfl⟩ := hx
  exact Nat.succ_pos a

/-- `ascList n` has `n` entries. -/
theorem ascList_length (n : Nat) : (ascList n).length = n := by simp [ascList]

/-- C6 (amended): over a strictly ascending lease table of positive
addresses of size N, the walker (cursor from 0.0.0.0, fixed page size
1000) returns exactly the N leases, no duplicates and no omissions, in
`N / 1000 + 1` round trips: one more than the claimed ceiling whenever
1000 divides N, because a full final page forces one extra fetch that
comes back empty (when 1000 does not divide N this equals the claimed
ceiling). -/
theorem C6_pagination (L : List Nat) (fuel : Nat)
    (hs : List.Sorted (· < ·) L) (hpos : ∀ x ∈ L, 0 < x)
    (hfuel : L.length / 1000 + 1 ≤ fuel) :
    getLeasesBySubnetPaged L fuel = (L, L.length / 1000 + 1) := by
  have hfilter : L.filter (fun x => decide (0 < x)) = L := by
    rw [List.filter_eq_self]
    intro a ha
    simpa using hpos a ha
  have h := pagedWalk_eq L 1000 (by omega) hs fuel 0 (by rw [hfilter]; exact hfuel)
  show pagedWalk L 1000 0 fuel = _
  rw [h, hfilter]

/-- Witness for C6 (amended) on a two-lease table fetched in one round. -/
theorem C6_pagination_witness : getLeasesBySubnetPaged [5, 7] 1 = ([5, 7], 1) :=
  C6_pagination [5, 7] 1 (by decide) (by decide) (by decide)

/-- Counterexample to C6 as stated: at N = 2000 (page size 1000 divides
N), the walker makes 3 round trips, not the claimed ⌈N/P⌉ = 2: the second
page is full, so a third request is issued and returns empty. -/
theorem C6_counterexample :
    (getLeasesBySubnetPaged (ascList 2000) 3).2 ≠ (2000 + 1000 - 1) / 1000 := by
  have hfilter : (ascList 2000).filter (fun x => decide (0 < x)) = ascList 2000 := by
    rw [List.filter_eq_self]
    intro a ha
    simpa using ascList_pos 2000 a ha
  have hfuel : ((ascList 2000).filter (fun x => decide (0 < x))).length / 1000 + 1 ≤ 3 := by
    rw [hfilter, ascList_length]
  have h := pagedWalk_eq (ascList 2000) 1000 (by omega) (ascList_sorted 2000) 3 0 hfuel
  have h2 : (getLeasesBySubnetPaged (ascList 2000) 3).2 =
      (ascList 2000).length / 1000 + 1 := by
    show (pagedWalk (ascList 2000) 1000 0 3).2 = _
    rw [h, hfilter]
  rw [h2, ascList_length]
  decide
